import Mathlib

/-!
Verification of `share-script/postman-exporter.py` (Postman Collections
Exporter) against its natural-language specification.

The script is a linear export pipeline over one REST API: validate a
configuration, create an output directory, resolve a workspace, fetch and
write collections and environments, write a summary.  We embed the pipeline
shallowly: JSON documents as an inductive `JValue`, the network as a total
function from request URL to an outcome, and the filesystem as an explicit
record of directories, file contents, and the ordered log of file writes.
HTTP headers (the `X-Api-Key` header the script attaches to every call) do
not influence any control flow in the script and are treated as part of the
ambient network function.
-/

/-- JSON values, as produced by `json.loads` in the script.  Object fields
keep their order (Python dicts preserve insertion order and `json.dump`
writes fields in that order, so `JValue` equality models byte-for-byte
equality of re-serialized JSON with stable key ordering). -/
inductive JValue : Type where
  | null : JValue
  | bool : Bool → JValue
  | num : Int → JValue
  | str : String → JValue
  | arr : List JValue → JValue
  | obj : List (String × JValue) → JValue

/-- Field lookup on a JSON object, first match wins (Python dict access;
dicts parsed by `json.loads` have unique keys, so first match is the match).
On a non-object this returns `none`, which models `dict.get` returning the
default; the script only ever applies it to parsed API responses. -/
def JValue.lookup : JValue → String → Option JValue
  | .obj fields, k => fields.lookup k
  | _, _ => none

/-- `d.get(k, default)` on a parsed response. -/
def JValue.getFieldD (v : JValue) (k : String) (d : JValue) : JValue :=
  (v.lookup k).getD d

/-- The script iterates listing fields as Python lists; a parsed JSON array
is the only list-shaped `JValue`. -/
def JValue.asArr : JValue → List JValue
  | .arr xs => xs
  | _ => []

/-- Outcome of one HTTP GET, before `make_request` translates it: a 2xx
response whose body parsed as JSON, an `urllib.error.HTTPError` with status
code and reason, an `urllib.error.URLError`, or a body that failed JSON
parsing. -/
inductive NetOutcome : Type where
  | ok (body : JValue)
  | httpError (code : Nat) (reason : String)
  | urlError (reason : String)
  | badJson (msg : String)

/-- The network: a total assignment of an outcome to every request URL.
One export run issues each URL at most once per loop iteration, so a
function of the URL captures the sequential single-attempt behaviour. -/
def Net : Type := String → NetOutcome

/-- `make_request(url, headers)`: perform the GET and either return the
parsed JSON body or raise an `Exception` whose message translates HTTP 401
and 404 into known hints (lines 45-66 of the script). -/
def make_request (net : Net) (url : String) : Except String JValue :=
  match net url with
  | .ok v => Except.ok v
  | .httpError code reason =>
      let base := s!"HTTP Error {code}: {reason}"
      if code == 401 then Except.error (base ++ " (Invalid API key)")
      else if code == 404 then Except.error (base ++ " (Resource not found)")
      else Except.error base
  | .urlError reason => Except.error s!"Connection error: {reason}"
  | .badJson msg => Except.error s!"Invalid JSON response: {msg}"

/-- The configuration record (the keys of `DEFAULT_CONFIG`).  Immutable for
the duration of one run.  Empty strings model the falsy defaults for
`workspace_name` and `workspace_id`; a missing `api_key` is the empty
string. -/
structure Config : Type where
  api_key : String
  workspace_type : String
  workspace_name : String
  workspace_id : String
  export_directory : String
  include_timestamp : Bool
  collection_format : String
  export_environments : Bool
deriving Repr, DecidableEq

/-- `DEFAULT_CONFIG` of the script. -/
def DEFAULT_CONFIG : Config :=
  { api_key := "YOUR_POSTMAN_API_KEY_HERE"
    workspace_type := "personal"
    workspace_name := ""
    workspace_id := ""
    export_directory := "postman_exports"
    include_timestamp := true
    collection_format := "v2.1.0"
    export_environments := true }

/-- The fixed workspace-type enumeration of `validate_config`. -/
def valid_workspace_types : List String :=
  ["personal", "team", "private", "public", "partner", "all"]

/-- `validate_config(config)` (lines 68-78): raise `ValueError` when the
API key is falsy, raise `ValueError` when the workspace type is not in the
fixed enumeration, otherwise return.  Pure: no network, no filesystem. -/
def validate_config (config : Config) : Except String Unit :=
  if config.api_key = "" then
    Except.error "API key is required. Get your API key from: https://web.postman.co/settings/me/api-keys"
  else if config.workspace_type ∈ valid_workspace_types then
    Except.ok ()
  else
    Except.error ("Invalid workspace_type. Must be one of: " ++
      String.intercalate ", " valid_workspace_types)

/-- The filesystem, restricted to what the script touches: the set of
directories that exist, the current file contents (association list, one
entry per path), and the ordered log of file-write events of the history.
`events` only ever grows; `files` is the current state after overwrites. -/
structure FS : Type where
  dirs : List String
  files : List (String × JValue)
  events : List String

/-- `os.makedirs(p, exist_ok=True)`: create the directory if absent, do
nothing if it already exists; never touches files. -/
def FS.mkdirs (fs : FS) (p : String) : FS :=
  if p ∈ fs.dirs then fs else { fs with dirs := fs.dirs ++ [p] }

/-- `open(p, 'w')` followed by `json.dump(v, ...)`: truncate any existing
file at `p` and write `v`.  The write is appended to the event log. -/
def FS.writeFile (fs : FS) (p : String) (v : JValue) : FS :=
  { fs with
    files := fs.files.filter (fun kv => kv.1 != p) ++ [(p, v)]
    events := fs.events ++ [p] }

/-- `create_export_directory(config)` (lines 80-95): build the directory
name (timestamp-suffixed when `include_timestamp`), then `os.makedirs` with
`exist_ok=True` for it, its `collections/` child, and (when environment
export is enabled) its `environments/` child.  `now_ts` stands for
`datetime.now().strftime('%Y%m%d_%H%M%S')`. -/
def create_export_directory (config : Config) (now_ts : String) (fs : FS) :
    String × FS :=
  let dir_name :=
    if config.include_timestamp then config.export_directory ++ "_" ++ now_ts
    else config.export_directory
  let fs := fs.mkdirs dir_name
  let fs := fs.mkdirs (dir_name ++ "/collections")
  let fs :=
    if config.export_environments then fs.mkdirs (dir_name ++ "/environments")
    else fs
  (dir_name, fs)

/-- One character of the inline sanitizer
`"".join(c if c.isalnum() or c in (' ', '-', '_') else '_' for c in name)`
(lines 174 and 243).  `Char.isAlphanum` models Python `str.isalnum` on the
ASCII range; the claims under verification only involve ASCII names. -/
def sanitizeChar (c : Char) : Char :=
  if c.isAlphanum || c == ' ' || c == '-' || c == '_' then c else '_'

/-- Python `str.isspace` membership for the characters `str.strip` removes,
on the ASCII range. -/
def py_isspace (c : Char) : Bool :=
  c == ' ' || c == '\t' || c == '\n' || c == '\x0d' || c == '\x0b' || c == '\x0c'

/-- Remove leading whitespace (the left half of `str.strip()`). -/
def ltrim (l : List Char) : List Char := l.dropWhile py_isspace

/-- Remove trailing whitespace (the right half of `str.strip()`). -/
def rtrim (l : List Char) : List Char :=
  (l.reverse.dropWhile py_isspace).reverse

/-- `safe_name = "".join(...)` then `safe_name.strip()`, on character
lists. -/
def sanitizeL (l : List Char) : List Char :=
  rtrim (ltrim (l.map sanitizeChar))

/-- The filename sanitizer of the script (lines 173-175 and 242-244):
replace every character outside alphanumerics and ` `, `-`, `_` by `_`,
then strip surrounding whitespace. -/
def sanitize (s : String) : String := ⟨sanitizeL s.data⟩

/-- Workspace resolution returns either a bare id (explicit-id path) or an
id together with the selected workspace object (listing path) — the
tuple-or-scalar return of `get_workspace`. -/
inductive WorkspaceResult : Type where
  | idOnly (id : String)
  | withInfo (id : String) (info : JValue)

/-- The workspace-listing URL. -/
def workspaces_url : String := "https://api.getpostman.com/workspaces"

/-- The collection-listing URL for a workspace. -/
def collections_list_url (workspace_id : String) : String :=
  "https://api.getpostman.com/collections?workspace=" ++ workspace_id

/-- The single-collection URL. -/
def collection_url (collection_id : String) : String :=
  "https://api.getpostman.com/collections/" ++ collection_id

/-- The workspace-detail URL (lists the workspace environments). -/
def workspace_detail_url (workspace_id : String) : String :=
  "https://api.getpostman.com/workspaces/" ++ workspace_id

/-- The single-environment URL. -/
def environment_url (environment_id : String) : String :=
  "https://api.getpostman.com/environments/" ++ environment_id

/-- Python `json_value == some_string`: true exactly when the value is that
string (a missing key gives `None`, which compares unequal). -/
def jStrEq (v : Option JValue) (s : String) : Bool :=
  match v with
  | some (.str t) => t == s
  | _ => false

/-- The body of the filter loop of `get_workspace` (lines 121-130): keep a
workspace unless the type filter (skipped for `all`) or the name filter
(skipped for an empty name) rejects it. -/
def matches_filters (config : Config) (w : JValue) : Bool :=
  (config.workspace_type == "all" || jStrEq (w.lookup "type") config.workspace_type) &&
  (config.workspace_name == "" || jStrEq (w.lookup "name") config.workspace_name)

/-- `get_workspace(config)` (lines 97-140).  Returns the result (or the
raised exception's message) together with the list of request URLs issued,
in order.  The explicit-id path returns before any request.  A listing
failure is re-raised as `Failed to fetch workspaces: ...`; an empty listing
and an empty filter result raise their own messages; otherwise the first
surviving workspace is returned with its id.  (`selected_workspace['id']`
with a missing or non-string id would raise a `KeyError`-style exception in
Python; the model surfaces it as an error, a path no claim touches.) -/
def get_workspace (config : Config) (net : Net) :
    Except String WorkspaceResult × List String :=
  if config.workspace_id ≠ "" then
    (Except.ok (.idOnly config.workspace_id), [])
  else
    match make_request net workspaces_url with
    | .error e => (Except.error ("Failed to fetch workspaces: " ++ e), [workspaces_url])
    | .ok response =>
      let workspaces := (response.getFieldD "workspaces" (.arr [])).asArr
      if workspaces.isEmpty then
        (Except.error "No workspaces found", [workspaces_url])
      else
        match workspaces.filter (matches_filters config) with
        | [] =>
          let base := "No " ++ config.workspace_type ++ " workspace found"
          let msg :=
            if config.workspace_name ≠ "" then
              base ++ " with name \x27" ++ config.workspace_name ++ "\x27"
            else base
          (Except.error msg, [workspaces_url])
        | w :: _ =>
          match w.lookup "id" with
          | some (.str i) => (Except.ok (.withInfo i w), [workspaces_url])
          | _ => (Except.error "KeyError: \x27id\x27", [workspaces_url])

/-- The per-collection loop of `export_collections` (lines 168-204),
threading the success count, the filesystem and the issued-URL log.
`collection['id']` / `collection['name']` are read outside the `try`
block, so a missing or non-string id or name raises out of the whole loop
(modelled as the error case).  Inside the `try`: fetch the collection;
a fetch error or a missing `collection` envelope is caught and the loop
continues without counting; otherwise the unwrapped envelope is written to
`<export_dir>/collections/<safe_name>.json` and the count increments. -/
def export_collections_loop (net : Net) (export_dir : String) :
    List JValue → Nat → FS → List String → Except String Nat × FS × List String
  | [], count, fs, calls => (Except.ok count, fs, calls)
  | item :: rest, count, fs, calls =>
    match item.lookup "id", item.lookup "name" with
    | some (.str collection_id), some (.str collection_name) =>
      let safe_name := sanitize collection_name
      let url := collection_url collection_id
      (match make_request net url with
       | .error _ =>
         export_collections_loop net export_dir rest count fs (calls ++ [url])
       | .ok collection_data =>
         match collection_data.lookup "collection" with
         | none =>
           export_collections_loop net export_dir rest count fs (calls ++ [url])
         | some collection_content =>
           let filename := export_dir ++ "/collections/" ++ safe_name ++ ".json"
           export_collections_loop net export_dir rest (count + 1)
             (fs.writeFile filename collection_content) (calls ++ [url]))
    | _, _ => (Except.error "KeyError: collection id or name", fs, calls)

/-- `export_collections(workspace_id, export_dir, config)` (lines 142-205).
A failed listing request is caught and the function returns 0; an empty
listing returns 0; otherwise the per-item loop runs. -/
def export_collections (workspace_id export_dir : String) (net : Net) (fs : FS) :
    Except String Nat × FS × List String :=
  let url := collections_list_url workspace_id
  match make_request net url with
  | .error _ => (Except.ok 0, fs, [url])
  | .ok response =>
    let collections := (response.getFieldD "collections" (.arr [])).asArr
    if collections.isEmpty then (Except.ok 0, fs, [url])
    else export_collections_loop net export_dir collections 0 fs [url]

/-- The per-environment loop of `export_environments` (lines 237-264).
`env['id']` is read outside the `try` (missing id raises out of the loop);
`env.get('name', f'environment_{env_id}')` defaults only when the key is
absent.  Inside the `try`: fetch the environment; a fetch error is caught
and skipped; otherwise the whole response is written (no envelope
unwrapping) to `<export_dir>/environments/<safe_name>.json`. -/
def export_environments_loop (net : Net) (export_dir : String) :
    List JValue → Nat → FS → List String → Except String Nat × FS × List String
  | [], count, fs, calls => (Except.ok count, fs, calls)
  | env :: rest, count, fs, calls =>
    match env.lookup "id" with
    | some (.str env_id) =>
      (match
        (match env.lookup "name" with
         | some v => some v
         | none => some (.str ("environment_" ++ env_id))) with
       | some (.str env_name) =>
         let safe_name := sanitize env_name
         let url := environment_url env_id
         (match make_request net url with
          | .error _ =>
            export_environments_loop net export_dir rest count fs (calls ++ [url])
          | .ok env_data =>
            let filename := export_dir ++ "/environments/" ++ safe_name ++ ".json"
            export_environments_loop net export_dir rest (count + 1)
              (fs.writeFile filename env_data) (calls ++ [url]))
       | _ => (Except.error "TypeError: environment name is not a string", fs, calls))
    | _ => (Except.error "KeyError: \x27id\x27", fs, calls)

/-- `export_environments(workspace_id, export_dir, config)` (lines
207-266).  Returns 0 immediately when environment export is disabled.  A
failed workspace-detail request is caught and the function returns 0; the
environments come from the `workspace.environments` field of the detail
response. -/
def export_environments (workspace_id export_dir : String) (config : Config)
    (net : Net) (fs : FS) : Except String Nat × FS × List String :=
  if !config.export_environments then (Except.ok 0, fs, [])
  else
    let url := workspace_detail_url workspace_id
    match make_request net url with
    | .error _ => (Except.ok 0, fs, [url])
    | .ok response =>
      let workspace_data := response.getFieldD "workspace" (.obj [])
      let environments := (workspace_data.getFieldD "environments" (.arr [])).asArr
      if environments.isEmpty then (Except.ok 0, fs, [url])
      else export_environments_loop net export_dir environments 0 fs [url]

/-- `create_summary_file(export_dir, collections_count, environments_count,
config)` (lines 268-286): build the summary record and write it to
`<export_dir>/export_summary.json`.  `now_iso` stands for
`datetime.now().isoformat()`. -/
def create_summary_file (export_dir : String)
    (collections_count environments_count : Nat) (config : Config)
    (now_iso : String) (fs : FS) : JValue × FS :=
  let summary : JValue := .obj
    [("export_date", .str now_iso),
     ("workspace_type", .str config.workspace_type),
     ("workspace_name", .str
       (if config.workspace_name ≠ "" then config.workspace_name else "Not specified")),
     ("collections_exported", .num (Int.ofNat collections_count)),
     ("environments_exported", .num (Int.ofNat environments_count)),
     ("export_directory", .str export_dir)]
  (summary, fs.writeFile (export_dir ++ "/export_summary.json") summary)

/-- The record returned by a successful `export_postman_collections`. -/
structure ExportResult : Type where
  export_directory : String
  collections_count : Nat
  environments_count : Nat
  workspace_info : Option JValue
  summary : JValue

/-- `export_postman_collections(config)` (lines 288-333): validate, create
the export directory, resolve the workspace (unpacking the tuple-or-scalar
result), export collections, export environments when enabled, write the
summary.  Returns the result or the first uncaught exception's message,
together with the final filesystem and the ordered request-URL log. -/
def export_postman_collections (config : Config) (now_ts now_iso : String)
    (net : Net) (fs : FS) : Except String ExportResult × FS × List String :=
  match validate_config config with
  | .error e => (Except.error e, fs, [])
  | .ok _ =>
    let dirFs := create_export_directory config now_ts fs
    let export_dir := dirFs.1
    let fs1 := dirFs.2
    match get_workspace config net with
    | (.error e, calls0) => (Except.error e, fs1, calls0)
    | (.ok wres, calls0) =>
      let workspace_id := match wres with | .idOnly i => i | .withInfo i _ => i
      let workspace_info : Option JValue :=
        match wres with | .idOnly _ => none | .withInfo _ info => some info
      match export_collections workspace_id export_dir net fs1 with
      | (.error e, fs2, calls1) => (Except.error e, fs2, calls0 ++ calls1)
      | (.ok collections_count, fs2, calls1) =>
        let envStep :=
          if config.export_environments then
            export_environments workspace_id export_dir config net fs2
          else (Except.ok 0, fs2, [])
        match envStep with
        | (.error e, fs3, calls2) => (Except.error e, fs3, calls0 ++ calls1 ++ calls2)
        | (.ok environments_count, fs3, calls2) =>
          let sumFs := create_summary_file export_dir collections_count
            environments_count config now_iso fs3
          (Except.ok
            { export_directory := export_dir
              collections_count := collections_count
              environments_count := environments_count
              workspace_info := workspace_info
              summary := sumFs.1 },
           sumFs.2, calls0 ++ calls1 ++ calls2)

/-- Whether one item of the collection listing makes it through the `try`
block of the export loop: its fetch succeeds and the response carries the
`collection` envelope.  (The loop reads the item id before the `try`, so
the predicate is only meaningful for items with a string id, which is the
well-formedness hypothesis of the counting theorem.) -/
def item_fetch_ok (net : Net) (item : JValue) : Bool :=
  match item.lookup "id" with
  | some (.str collection_id) =>
    (match make_request net (collection_url collection_id) with
     | .ok collection_data =>
       (match collection_data.lookup "collection" with
        | some _ => true
        | none => false)
     | .error _ => false)
  | _ => false

/-- The empty filesystem. -/
def emptyFS : FS := { dirs := [], files := [], events := [] }

/-- A configuration with an explicit workspace id `w1`, timestamp and
environment export both off. -/
def cfg_w1 : Config :=
  { api_key := "test-key", workspace_type := "personal", workspace_name := "",
    workspace_id := "w1", export_directory := "out", include_timestamp := false,
    collection_format := "v2.1.0", export_environments := false }

/-- A configuration selecting a team workspace by type, no explicit id. -/
def cfg_team : Config :=
  { api_key := "test-key", workspace_type := "team", workspace_name := "",
    workspace_id := "", export_directory := "out", include_timestamp := false,
    collection_format := "v2.1.0", export_environments := false }

/-- A network where the collection listing of workspace `w1` fails with a
connection error and every other request answers JSON `null`. -/
def net_listing_down : Net := fun url =>
  if url == collections_list_url "w1" then NetOutcome.urlError "Connection refused"
  else NetOutcome.ok JValue.null

/-- A network where every request fails with a connection error. -/
def net_down : Net := fun _ => NetOutcome.urlError "Connection refused"

/-- A network whose workspace listing holds one personal workspace and no
team workspace. -/
def net_personal_only : Net := fun url =>
  if url == workspaces_url then
    NetOutcome.ok (JValue.obj [("workspaces", JValue.arr
      [JValue.obj [("id", JValue.str "w1"), ("name", JValue.str "My Space"),
                   ("type", JValue.str "personal")]])])
  else NetOutcome.ok JValue.null

/-- A network serving a two-collection listing for `w1` where the first
collection's fetch fails with HTTP 404 and the second succeeds. -/
def net_one_of_two : Net := fun url =>
  if url == collections_list_url "w1" then
    NetOutcome.ok (JValue.obj [("collections", JValue.arr
      [JValue.obj [("id", JValue.str "c1"), ("name", JValue.str "First")],
       JValue.obj [("id", JValue.str "c2"), ("name", JValue.str "Second")]])])
  else if url == collection_url "c2" then
    NetOutcome.ok (JValue.obj [("collection", JValue.str "payload2")])
  else NetOutcome.httpError 404 "Not Found"

/-- A network serving two collections whose distinct names `A/B` and `A_B`
sanitize to the same filename. -/
def net_collide : Net := fun url =>
  if url == collections_list_url "w1" then
    NetOutcome.ok (JValue.obj [("collections", JValue.arr
      [JValue.obj [("id", JValue.str "c1"), ("name", JValue.str "A/B")],
       JValue.obj [("id", JValue.str "c2"), ("name", JValue.str "A_B")]])])
  else if url == collection_url "c1" then
    NetOutcome.ok (JValue.obj [("collection", JValue.str "first payload")])
  else if url == collection_url "c2" then
    NetOutcome.ok (JValue.obj [("collection", JValue.str "second payload")])
  else NetOutcome.ok JValue.null

/-- A network whose collection listing for `w1` is empty. -/
def net_empty_listing : Net := fun url =>
  if url == collections_list_url "w1" then
    NetOutcome.ok (JValue.obj [("collections", JValue.arr [])])
  else NetOutcome.ok JValue.null

/-- A filesystem left behind by an earlier run into `out`: the directory
tree exists and still holds one stale collection file. -/
def fs_stale : FS :=
  { dirs := ["out", "out/collections"]
    files := [("out/collections/stale.json", JValue.str "from an earlier run")]
    events := [] }

theorem dropWhile_idem (p : Char → Bool) (l : List Char) :
    (l.dropWhile p).dropWhile p = l.dropWhile p := by
  induction l with
  | nil => rfl
  | cons a t ih =>
    by_cases h : p a
    · simp [List.dropWhile_cons, h, ih]
    · simp [List.dropWhile_cons, h]

theorem exists_dropWhile_decomp (p : Char → Bool) (l : List Char) :
    ∃ t, l = t ++ l.dropWhile p := by
  induction l with
  | nil => exact ⟨[], rfl⟩
  | cons a t ih =>
    by_cases h : p a
    · obtain ⟨u, hu⟩ := ih
      refine ⟨a :: u, ?_⟩
      rw [List.dropWhile_cons, if_pos h]
      exact congrArg (List.cons a) hu
    · exact ⟨[], by rw [List.dropWhile_cons, if_neg h]; rfl⟩

theorem dropWhile_head_false (p : Char → Bool) (a : Char) (t : List Char)
    (h : (a :: t).dropWhile p = a :: t) : p a = false := by
  by_cases hp : p a
  · exfalso
    rw [List.dropWhile_cons, if_pos hp] at h
    have hle := (List.dropWhile_sublist (l := t) p).length_le
    rw [h] at hle
    simp only [List.length_cons] at hle
    omega
  · simpa using hp

theorem ltrim_idem (u : List Char) : ltrim (ltrim u) = ltrim u :=
  dropWhile_idem _ _

theorem rtrim_idem (u : List Char) : rtrim (rtrim u) = rtrim u := by
  unfold rtrim
  rw [List.reverse_reverse, dropWhile_idem]

theorem ltrim_rtrim (u : List Char) (h : ltrim u = u) :
    ltrim (rtrim u) = rtrim u := by
  obtain ⟨t, ht⟩ := exists_dropWhile_decomp py_isspace u.reverse
  cases hr : (u.reverse.dropWhile py_isspace).reverse with
  | nil => unfold rtrim; rw [hr]; rfl
  | cons a s =>
    have hu : u = a :: (s ++ t.reverse) := by
      have h2 := congrArg List.reverse ht
      rw [List.reverse_reverse, List.reverse_append] at h2
      rw [hr] at h2
      simpa using h2
    have h3 : ltrim (a :: (s ++ t.reverse)) = a :: (s ++ t.reverse) := by
      rw [← hu]; exact h
    have ha : py_isspace a = false := dropWhile_head_false _ _ _ h3
    unfold rtrim
    rw [hr]
    show List.dropWhile py_isspace (a :: s) = a :: s
    rw [List.dropWhile_cons, if_neg (by simp [ha])]

theorem strip_idem (l : List Char) :
    rtrim (ltrim (rtrim (ltrim l))) = rtrim (ltrim l) := by
  rw [ltrim_rtrim (ltrim l) (ltrim_idem l), rtrim_idem]

theorem mem_ltrim (x : Char) (l : List Char) (h : x ∈ ltrim l) : x ∈ l :=
  (List.dropWhile_sublist py_isspace).mem h

theorem mem_rtrim (x : Char) (l : List Char) (h : x ∈ rtrim l) : x ∈ l := by
  unfold rtrim at h
  rw [List.mem_reverse] at h
  exact List.mem_reverse.mp ((List.dropWhile_sublist py_isspace).mem h)

theorem sanitizeChar_idem (c : Char) :
    sanitizeChar (sanitizeChar c) = sanitizeChar c := by
  by_cases h : (c.isAlphanum || c == ' ' || c == '-' || c == '_') = true
  · simp [sanitizeChar, h]
  · have h1 : sanitizeChar c = '_' := by simp [sanitizeChar, h]
    rw [h1]
    decide

theorem map_sanitizeChar_fix (v : List Char)
    (h : ∀ x ∈ v, sanitizeChar x = x) : v.map sanitizeChar = v := by
  rw [List.map_congr_left h]
  exact List.map_id v

theorem sanitizeL_idem (l : List Char) : sanitizeL (sanitizeL l) = sanitizeL l := by
  unfold sanitizeL
  have hfix : ∀ x ∈ rtrim (ltrim (l.map sanitizeChar)), sanitizeChar x = x := by
    intro x hx
    have hx1 : x ∈ l.map sanitizeChar := mem_ltrim _ _ (mem_rtrim _ _ hx)
    obtain ⟨y, _, hy⟩ := List.mem_map.mp hx1
    rw [← hy]
    exact sanitizeChar_idem y
  rw [map_sanitizeChar_fix _ hfix]
  exact strip_idem _

/-- C7: filename sanitization is idempotent — sanitizing an
already-sanitized name (replace each character outside alphanumerics and
space/hyphen/underscore by an underscore, then strip surrounding
whitespace) yields the same name, for every string. -/
theorem sanitize_idempotent (s : String) : sanitize (sanitize s) = sanitize s :=
  congrArg (fun l => (⟨l⟩ : String)) (sanitizeL_idem s.data)

/-- C4: with a non-empty explicit workspace id, `get_workspace` issues no
request at all and returns the id unchanged (no validation that the
workspace exists), for every network. -/
theorem get_workspace_explicit_id (config : Config) (net : Net)
    (h : config.workspace_id ≠ "") :
    get_workspace config net = (Except.ok (.idOnly config.workspace_id), []) := by
  simp [get_workspace, h]

/-- Witness for C4 at a concrete configuration and network. -/
theorem get_workspace_explicit_id_witness :
    get_workspace { DEFAULT_CONFIG with workspace_id := "abc123" }
      (fun _ => NetOutcome.ok JValue.null)
      = (Except.ok (.idOnly "abc123"), []) :=
  get_workspace_explicit_id { DEFAULT_CONFIG with workspace_id := "abc123" }
    (fun _ => NetOutcome.ok JValue.null) (by decide)

/-- C5: `validate_config` fails exactly when the credential is the empty
string or the workspace type lies outside the fixed enumeration; it is a
pure function of the configuration (no network, no filesystem argument at
all), and when it fails, the full export run returns that error with the
filesystem untouched and an empty request log — validation happens before
any network call. -/
theorem validate_config_spec (config : Config) (net : Net) (fs : FS)
    (now_ts now_iso : String) :
    ((∃ e, validate_config config = Except.error e) ↔
      (config.api_key = "" ∨ config.workspace_type ∉ valid_workspace_types)) ∧
    (∀ e, validate_config config = Except.error e →
      export_postman_collections config now_ts now_iso net fs
        = (Except.error e, fs, [])) := by
  constructor
  · constructor
    · rintro ⟨e, he⟩
      by_cases h1 : config.api_key = ""
      · exact Or.inl h1
      · by_cases h2 : config.workspace_type ∈ valid_workspace_types
        · exfalso
          simp [validate_config, h1, h2] at he
        · exact Or.inr h2
    · intro h
      rcases h with h | h
      · exact ⟨"API key is required. Get your API key from: https://web.postman.co/settings/me/api-keys",
          by simp [validate_config, h]⟩
      · by_cases h1 : config.api_key = ""
        · exact ⟨"API key is required. Get your API key from: https://web.postman.co/settings/me/api-keys",
            by simp [validate_config, h1]⟩
        · exact ⟨"Invalid workspace_type. Must be one of: " ++
            String.intercalate ", " valid_workspace_types,
            by simp [validate_config, h1, h]⟩
  · intro e he
    simp [export_postman_collections, he]

/-- Witness for C5: a configuration with an empty API key makes the full
run fail with the API-key message, no request issued, filesystem
untouched. -/
theorem validate_config_spec_witness :
    export_postman_collections { DEFAULT_CONFIG with api_key := "" } "ts" "iso"
      (fun _ => NetOutcome.ok JValue.null) emptyFS
      = (Except.error "API key is required. Get your API key from: https://web.postman.co/settings/me/api-keys",
         emptyFS, []) :=
  (validate_config_spec { DEFAULT_CONFIG with api_key := "" }
      (fun _ => NetOutcome.ok JValue.null) emptyFS "ts" "iso").2 _ rfl

theorem mkdirs_files (fs : FS) (p : String) : (fs.mkdirs p).files = fs.files := by
  unfold FS.mkdirs
  split <;> rfl

theorem mkdirs_events (fs : FS) (p : String) : (fs.mkdirs p).events = fs.events := by
  unfold FS.mkdirs
  split <;> rfl

theorem mem_mkdirs_self (fs : FS) (p : String) : p ∈ (fs.mkdirs p).dirs := by
  unfold FS.mkdirs
  split
  · assumption
  · simp

theorem mem_mkdirs_of_mem (fs : FS) (p d : String) (h : d ∈ fs.dirs) :
    d ∈ (fs.mkdirs p).dirs := by
  unfold FS.mkdirs
  split
  · exact h
  · simp [h]

theorem create_dir_eq_env (config : Config)
    (henv : config.export_environments = true) (now_ts : String) (fs : FS) :
    create_export_directory config now_ts fs =
      ((if config.include_timestamp then config.export_directory ++ "_" ++ now_ts
        else config.export_directory),
       ((fs.mkdirs (if config.include_timestamp then
            config.export_directory ++ "_" ++ now_ts else config.export_directory)).mkdirs
          ((if config.include_timestamp then config.export_directory ++ "_" ++ now_ts
            else config.export_directory) ++ "/collections")).mkdirs
        ((if config.include_timestamp then config.export_directory ++ "_" ++ now_ts
          else config.export_directory) ++ "/environments")) := by
  simp [create_export_directory, henv]

theorem create_dir_eq_noenv (config : Config)
    (henv : config.export_environments = false) (now_ts : String) (fs : FS) :
    create_export_directory config now_ts fs =
      ((if config.include_timestamp then config.export_directory ++ "_" ++ now_ts
        else config.export_directory),
       (fs.mkdirs (if config.include_timestamp then
          config.export_directory ++ "_" ++ now_ts else config.export_directory)).mkdirs
         ((if config.include_timestamp then config.export_directory ++ "_" ++ now_ts
           else config.export_directory) ++ "/collections")) := by
  simp [create_export_directory, henv]

/-- `create_export_directory` builds the directory name from the
configuration, ensures the tree exists with exist-ok semantics, and leaves
every existing file, the write log, and every existing directory in place. -/
theorem create_dir_spec (config : Config) (now_ts : String) (fs : FS) :
    (create_export_directory config now_ts fs).2.files = fs.files ∧
    (create_export_directory config now_ts fs).2.events = fs.events ∧
    (∀ d, d ∈ fs.dirs → d ∈ (create_export_directory config now_ts fs).2.dirs) ∧
    (create_export_directory config now_ts fs).1 =
      (if config.include_timestamp then config.export_directory ++ "_" ++ now_ts
       else config.export_directory) ∧
    (create_export_directory config now_ts fs).1
      ∈ (create_export_directory config now_ts fs).2.dirs ∧
    ((create_export_directory config now_ts fs).1 ++ "/collections")
      ∈ (create_export_directory config now_ts fs).2.dirs ∧
    (config.export_environments = true →
      ((create_export_directory config now_ts fs).1 ++ "/environments")
        ∈ (create_export_directory config now_ts fs).2.dirs) := by
  by_cases henv : config.export_environments = true
  · rw [create_dir_eq_env config henv now_ts fs]
    exact ⟨by rw [mkdirs_files, mkdirs_files, mkdirs_files],
           by rw [mkdirs_events, mkdirs_events, mkdirs_events],
           fun d hd => mem_mkdirs_of_mem _ _ _
             (mem_mkdirs_of_mem _ _ _ (mem_mkdirs_of_mem _ _ _ hd)),
           rfl,
           mem_mkdirs_of_mem _ _ _ (mem_mkdirs_of_mem _ _ _ (mem_mkdirs_self _ _)),
           mem_mkdirs_of_mem _ _ _ (mem_mkdirs_self _ _),
           fun _ => mem_mkdirs_self _ _⟩
  · rw [create_dir_eq_noenv config (by simpa using henv) now_ts fs]
    exact ⟨by rw [mkdirs_files, mkdirs_files],
           by rw [mkdirs_events, mkdirs_events],
           fun d hd => mem_mkdirs_of_mem _ _ _ (mem_mkdirs_of_mem _ _ _ hd),
           rfl,
           mem_mkdirs_of_mem _ _ _ (mem_mkdirs_self _ _),
           mem_mkdirs_self _ _,
           fun hcontra => absurd hcontra henv⟩

theorem jStrEq_iff (v : Option JValue) (s : String) :
    jStrEq v s = true ↔ v = some (JValue.str s) := by
  cases v with
  | none => simp [jStrEq]
  | some jv => cases jv <;> simp [jStrEq]

/-- C3: without an explicit workspace id, resolution (a) keeps exactly the
workspaces matching the configured type (all of them for type `all`) and,
when a name is configured, exactly the ones with that name; (b) propagates
a failed listing request as `Failed to fetch workspaces: ...`; (c) fails
with `No workspaces found` on an empty listing; (d) fails when no entry
survives the filters, naming the configured type and, when present, the
configured name; (e) returns the first surviving entry in listing order. -/
theorem get_workspace_listing_spec (config : Config) (net : Net)
    (h : config.workspace_id = "") :
    (∀ w, matches_filters config w = true ↔
      ((config.workspace_type = "all" ∨
          w.lookup "type" = some (JValue.str config.workspace_type)) ∧
       (config.workspace_name = "" ∨
          w.lookup "name" = some (JValue.str config.workspace_name)))) ∧
    (∀ e, make_request net workspaces_url = Except.error e →
      get_workspace config net =
        (Except.error ("Failed to fetch workspaces: " ++ e), [workspaces_url])) ∧
    (∀ response, make_request net workspaces_url = Except.ok response →
      (response.getFieldD "workspaces" (JValue.arr [])).asArr = [] →
      get_workspace config net =
        (Except.error "No workspaces found", [workspaces_url])) ∧
    (∀ response a t, make_request net workspaces_url = Except.ok response →
      (response.getFieldD "workspaces" (JValue.arr [])).asArr = a :: t →
      (a :: t).filter (matches_filters config) = [] →
      get_workspace config net =
        (Except.error
          (if config.workspace_name ≠ "" then
            "No " ++ config.workspace_type ++ " workspace found" ++
              " with name \x27" ++ config.workspace_name ++ "\x27"
           else "No " ++ config.workspace_type ++ " workspace found"),
         [workspaces_url])) ∧
    (∀ response a t w rest i, make_request net workspaces_url = Except.ok response →
      (response.getFieldD "workspaces" (JValue.arr [])).asArr = a :: t →
      (a :: t).filter (matches_filters config) = w :: rest →
      w.lookup "id" = some (JValue.str i) →
      get_workspace config net = (Except.ok (.withInfo i w), [workspaces_url])) := by
  refine ⟨?_, ?_, ?_, ?_, ?_⟩
  · intro w
    simp [matches_filters, jStrEq_iff, Bool.and_eq_true, Bool.or_eq_true]
  · intro e he
    simp [get_workspace, h, he]
  · intro response hresp hempty
    simp [get_workspace, h, hresp, hempty]
  · intro response a t hresp hlist hfilt
    simp [get_workspace, h, hresp, hlist, hfilt]
  · intro response a t w rest i hresp hlist hfilt hid
    simp [get_workspace, h, hresp, hlist, hfilt, hid]

/-- Witness for C3: workspace type `team` against a listing holding only a
personal workspace — resolution fails with an error naming `team`. -/
theorem get_workspace_listing_spec_witness :
    get_workspace cfg_team net_personal_only =
      (Except.error "No team workspace found", [workspaces_url]) := by
  have hpart := (get_workspace_listing_spec cfg_team net_personal_only rfl).2.2.2.1
    (JValue.obj [("workspaces", JValue.arr
      [JValue.obj [("id", JValue.str "w1"), ("name", JValue.str "My Space"),
                   ("type", JValue.str "personal")]])])
    (JValue.obj [("id", JValue.str "w1"), ("name", JValue.str "My Space"),
                 ("type", JValue.str "personal")])
    [] rfl rfl rfl
  simpa using hpart

theorem length_filter_split {α : Type} (p : α → Bool) (l : List α) :
    (l.filter p).length + (l.filter (fun a => !(p a))).length = l.length := by
  induction l with
  | nil => rfl
  | cons a t ih =>
    by_cases h : p a
    · simp [List.filter_cons, h]
      all_goals omega
    · have h2 : p a = false := by simpa using h
      simp [List.filter_cons, h2]
      all_goals omega

theorem export_collections_loop_count (net : Net) (export_dir : String) :
    ∀ (items : List JValue) (count : Nat) (fs : FS) (calls : List String),
    (∀ item ∈ items, ∃ i n, item.lookup "id" = some (JValue.str i) ∧
        item.lookup "name" = some (JValue.str n)) →
    (export_collections_loop net export_dir items count fs calls).1 =
        Except.ok (count + (items.filter (item_fetch_ok net)).length) ∧
    (export_collections_loop net export_dir items count fs calls).2.1.events.length =
        fs.events.length + (items.filter (item_fetch_ok net)).length := by
  intro items
  induction items with
  | nil =>
    intro count fs calls _
    simp [export_collections_loop]
  | cons item rest ih =>
    intro count fs calls hwf
    obtain ⟨i, n, hid, hname⟩ := hwf item (List.mem_cons_self _ _)
    have hrest : ∀ x ∈ rest, ∃ i n, x.lookup "id" = some (JValue.str i) ∧
        x.lookup "name" = some (JValue.str n) :=
      fun x hx => hwf x (List.mem_cons_of_mem _ hx)
    cases hreq : make_request net (collection_url i) with
    | error e =>
      have hstep : export_collections_loop net export_dir (item :: rest) count fs calls =
          export_collections_loop net export_dir rest count fs
            (calls ++ [collection_url i]) := by
        simp [export_collections_loop, hid, hname, hreq]
      have hfo : item_fetch_ok net item = false := by
        simp [item_fetch_ok, hid, hreq]
      have hih := ih count fs (calls ++ [collection_url i]) hrest
      rw [hstep]
      simpa [List.filter_cons, hfo] using hih
    | ok collection_data =>
      cases henv : collection_data.lookup "collection" with
      | none =>
        have hstep : export_collections_loop net export_dir (item :: rest) count fs calls =
            export_collections_loop net export_dir rest count fs
              (calls ++ [collection_url i]) := by
          simp [export_collections_loop, hid, hname, hreq, henv]
        have hfo : item_fetch_ok net item = false := by
          simp [item_fetch_ok, hid, hreq, henv]
        have hih := ih count fs (calls ++ [collection_url i]) hrest
        rw [hstep]
        simpa [List.filter_cons, hfo] using hih
      | some c =>
        have hstep : export_collections_loop net export_dir (item :: rest) count fs calls =
            export_collections_loop net export_dir rest (count + 1)
              (fs.writeFile (export_dir ++ "/collections/" ++ sanitize n ++ ".json") c)
              (calls ++ [collection_url i]) := by
          simp [export_collections_loop, hid, hname, hreq, henv]
        have hfo : item_fetch_ok net item = true := by
          simp [item_fetch_ok, hid, hreq, henv]
        have hih := ih (count + 1)
          (fs.writeFile (export_dir ++ "/collections/" ++ sanitize n ++ ".json") c)
          (calls ++ [collection_url i]) hrest
        rw [hstep]
        constructor
        · rw [hih.1]
          simp only [List.filter_cons, hfo, if_true, List.length_cons,
            Except.ok.injEq]
          omega
        · rw [hih.2]
          simp only [FS.writeFile, List.length_append, List.length_cons,
            List.length_nil, List.filter_cons, hfo, if_true]
          omega

/-- C1: when the collection listing succeeds with N items (each carrying a
string id and name), and M of them fail inside the per-item
fetch/unwrap/write step, `export_collections` catches every per-item
failure, keeps looping, and returns success count N−M with exactly N−M
collection-file writes performed — no per-item failure aborts the loop or
the run. -/
theorem export_collections_counts (workspace_id export_dir : String) (net : Net)
    (fs : FS) (response : JValue) (items : List JValue)
    (hresp : make_request net (collections_list_url workspace_id) = Except.ok response)
    (hitems : (response.getFieldD "collections" (JValue.arr [])).asArr = items)
    (hwf : ∀ item ∈ items, ∃ i n, item.lookup "id" = some (JValue.str i) ∧
        item.lookup "name" = some (JValue.str n)) :
    (export_collections workspace_id export_dir net fs).1 =
      Except.ok (items.length -
        (items.filter (fun it => !(item_fetch_ok net it))).length) ∧
    (export_collections workspace_id export_dir net fs).2.1.events.length =
      fs.events.length + (items.length -
        (items.filter (fun it => !(item_fetch_ok net it))).length) := by
  have hloop := export_collections_loop_count net export_dir items 0 fs
    [collections_list_url workspace_id] hwf
  have hsp := length_filter_split (item_fetch_ok net) items
  have hunf : export_collections workspace_id export_dir net fs =
      export_collections_loop net export_dir items 0 fs
        [collections_list_url workspace_id] := by
    cases items with
    | nil => simp [export_collections, hresp, hitems, export_collections_loop]
    | cons a t => simp [export_collections, hresp, hitems]
  rw [hunf]
  constructor
  · rw [hloop.1]
    congr 1
    omega
  · rw [hloop.2]
    omega

/-- Witness for C1: a two-collection listing where the first fetch fails
with HTTP 404 — the run reports one success and performs one write. -/
theorem export_collections_counts_witness :
    (export_collections "w1" "out" net_one_of_two emptyFS).1 = Except.ok 1 ∧
    (export_collections "w1" "out" net_one_of_two emptyFS).2.1.events.length = 1 := by
  have h := export_collections_counts "w1" "out" net_one_of_two emptyFS
    (JValue.obj [("collections", JValue.arr
      [JValue.obj [("id", JValue.str "c1"), ("name", JValue.str "First")],
       JValue.obj [("id", JValue.str "c2"), ("name", JValue.str "Second")]])])
    [JValue.obj [("id", JValue.str "c1"), ("name", JValue.str "First")],
     JValue.obj [("id", JValue.str "c2"), ("name", JValue.str "Second")]]
    rfl rfl
    (by
      intro item hm
      simp only [List.mem_cons, List.not_mem_nil, or_false] at hm
      rcases hm with h | h
      · subst h; exact ⟨"c1", "First", rfl, rfl⟩
      · subst h; exact ⟨"c2", "Second", rfl, rfl⟩)
  exact h

/-- C8: when a collection fetch succeeds and the response carries the
`collection` envelope, the loop writes exactly the unwrapped envelope value
to the item's file (equality of `JValue`s, i.e. byte-for-byte after
re-serialization with stable key ordering) and proceeds with the remaining
items; when the envelope field is missing, the item is a hard failure —
nothing is written for it, in particular the wrapped response is not
written — and the loop continues with the remaining items. -/
theorem collection_roundtrip_spec (net : Net) (export_dir : String)
    (item : JValue) (rest : List JValue) (count : Nat) (fs : FS)
    (calls : List String) (cid cname : String) (data : JValue)
    (hid : item.lookup "id" = some (JValue.str cid))
    (hname : item.lookup "name" = some (JValue.str cname))
    (hfetch : make_request net (collection_url cid) = Except.ok data) :
    (∀ c, data.lookup "collection" = some c →
      export_collections_loop net export_dir (item :: rest) count fs calls =
        export_collections_loop net export_dir rest (count + 1)
          (fs.writeFile (export_dir ++ "/collections/" ++ sanitize cname ++ ".json") c)
          (calls ++ [collection_url cid])) ∧
    (data.lookup "collection" = none →
      export_collections_loop net export_dir (item :: rest) count fs calls =
        export_collections_loop net export_dir rest count fs
          (calls ++ [collection_url cid])) := by
  constructor
  · intro c hc
    simp [export_collections_loop, hid, hname, hfetch, hc]
  · intro hc
    simp [export_collections_loop, hid, hname, hfetch, hc]

/-- Witness for C8 at a concrete item whose fetch succeeds with an
envelope: the unwrapped payload is what lands in the file. -/
theorem collection_roundtrip_spec_witness :
    export_collections_loop net_collide "out"
      [JValue.obj [("id", JValue.str "c1"), ("name", JValue.str "A/B")]] 0 emptyFS []
      = export_collections_loop net_collide "out" [] (0 + 1)
          (emptyFS.writeFile ("out" ++ "/collections/" ++ sanitize "A/B" ++ ".json")
            (JValue.str "first payload")) ([] ++ [collection_url "c1"]) :=
  (collection_roundtrip_spec net_collide "out"
      (JValue.obj [("id", JValue.str "c1"), ("name", JValue.str "A/B")]) [] 0 emptyFS []
      "c1" "A/B" (JValue.obj [("collection", JValue.str "first payload")])
      rfl rfl rfl).1 (JValue.str "first payload") rfl

/-- C6: a successfully fetched collection is written to
`<exportDir>/collections/<sanitize name>.json` and a successfully fetched
environment to `<exportDir>/environments/<sanitize name>.json`;
sanitization maps `Auth API` to itself and `Auth/API!` to `Auth_API_`; and
sanitization collisions are not detected — with two collections named
`A/B` and `A_B`, both writes target `out/collections/A_B.json`, the count
is still 2, and the surviving file content is the later collection's
payload. -/
theorem sanitized_filename_spec :
    (sanitize "Auth API" = "Auth API" ∧ sanitize "Auth/API!" = "Auth_API_") ∧
    (∀ (net : Net) (export_dir : String) (item : JValue) (rest : List JValue)
        (count : Nat) (fs : FS) (calls : List String) (cid cname : String)
        (data c : JValue),
      item.lookup "id" = some (JValue.str cid) →
      item.lookup "name" = some (JValue.str cname) →
      make_request net (collection_url cid) = Except.ok data →
      data.lookup "collection" = some c →
      export_collections_loop net export_dir (item :: rest) count fs calls =
        export_collections_loop net export_dir rest (count + 1)
          (fs.writeFile (export_dir ++ "/collections/" ++ sanitize cname ++ ".json") c)
          (calls ++ [collection_url cid])) ∧
    (∀ (net : Net) (export_dir : String) (env : JValue) (rest : List JValue)
        (count : Nat) (fs : FS) (calls : List String) (eid ename : String)
        (env_data : JValue),
      env.lookup "id" = some (JValue.str eid) →
      env.lookup "name" = some (JValue.str ename) →
      make_request net (environment_url eid) = Except.ok env_data →
      export_environments_loop net export_dir (env :: rest) count fs calls =
        export_environments_loop net export_dir rest (count + 1)
          (fs.writeFile (export_dir ++ "/environments/" ++ sanitize ename ++ ".json")
            env_data)
          (calls ++ [environment_url eid])) ∧
    ((export_collections "w1" "out" net_collide emptyFS).1 = Except.ok 2 ∧
     (export_collections "w1" "out" net_collide emptyFS).2.1.events =
       ["out/collections/A_B.json", "out/collections/A_B.json"] ∧
     (export_collections "w1" "out" net_collide emptyFS).2.1.files.lookup
       "out/collections/A_B.json" = some (JValue.str "second payload")) := by
  refine ⟨⟨by decide, by decide⟩, ?_, ?_, rfl, rfl, rfl⟩
  · intro net export_dir item rest count fs calls cid cname data c hid hname hfetch hc
    simp [export_collections_loop, hid, hname, hfetch, hc]
  · intro net export_dir env rest count fs calls eid ename env_data hid hname hfetch
    simp [export_environments_loop, hid, hname, hfetch]

/-- Witness for C6 at concrete successful items in both loops: each write
goes to the sanitized filename under the loop's own subdirectory. -/
theorem sanitized_filename_spec_witness :
    (export_collections_loop net_one_of_two "out"
      [JValue.obj [("id", JValue.str "c2"), ("name", JValue.str "Second")]] 0 emptyFS []
      = export_collections_loop net_one_of_two "out" [] (0 + 1)
          (emptyFS.writeFile ("out" ++ "/collections/" ++ sanitize "Second" ++ ".json")
            (JValue.str "payload2")) ([] ++ [collection_url "c2"])) ∧
    (export_environments_loop net_collide "out"
      [JValue.obj [("id", JValue.str "e1"), ("name", JValue.str "Env 1")]] 0 emptyFS []
      = export_environments_loop net_collide "out" [] (0 + 1)
          (emptyFS.writeFile ("out" ++ "/environments/" ++ sanitize "Env 1" ++ ".json")
            JValue.null) ([] ++ [environment_url "e1"])) :=
  ⟨sanitized_filename_spec.2.1 net_one_of_two "out"
    (JValue.obj [("id", JValue.str "c2"), ("name", JValue.str "Second")]) [] 0 emptyFS []
    "c2" "Second" (JValue.obj [("collection", JValue.str "payload2")])
    (JValue.str "payload2") rfl rfl rfl rfl,
   sanitized_filename_spec.2.2.1 net_collide "out"
    (JValue.obj [("id", JValue.str "e1"), ("name", JValue.str "Env 1")]) [] 0 emptyFS []
    "e1" "Env 1" JValue.null rfl rfl rfl⟩

/-- Counterexample to C2 as stated: here the collections-listing call does
raise a transport error, yet the full export run returns a success record
(zero collections, summary written) instead of propagating the error to
its caller — the error is absorbed in `export_collections`. -/
theorem listing_error_not_propagated_counterexample :
    make_request net_listing_down (collections_list_url "w1") =
      Except.error "Connection error: Connection refused" ∧
    (export_postman_collections cfg_w1 "ts" "iso" net_listing_down emptyFS).1 =
      Except.ok
        { export_directory := "out"
          collections_count := 0
          environments_count := 0
          workspace_info := none
          summary := JValue.obj
            [("export_date", JValue.str "iso"),
             ("workspace_type", JValue.str "personal"),
             ("workspace_name", JValue.str "Not specified"),
             ("collections_exported", JValue.num 0),
             ("environments_exported", JValue.num 0),
             ("export_directory", JValue.str "out")] } :=
  ⟨rfl, rfl⟩

/-- C2 amended: a transport error on the collections listing or on the
workspace-detail call is caught inside the respective export function,
which logs it and returns a zero count — the run continues; only the
workspace listing issued during workspace resolution propagates its error
to the caller, wrapped in the human-readable
`Failed to fetch workspaces: ...` cause. -/
theorem listing_error_handling_spec (workspace_id export_dir : String)
    (config : Config) (net : Net) (fs : FS) (e : String) :
    (make_request net (collections_list_url workspace_id) = Except.error e →
      export_collections workspace_id export_dir net fs =
        (Except.ok 0, fs, [collections_list_url workspace_id])) ∧
    (config.export_environments = true →
      make_request net (workspace_detail_url workspace_id) = Except.error e →
      export_environments workspace_id export_dir config net fs =
        (Except.ok 0, fs, [workspace_detail_url workspace_id])) ∧
    (config.workspace_id = "" →
      make_request net workspaces_url = Except.error e →
      (get_workspace config net).1 =
        Except.error ("Failed to fetch workspaces: " ++ e)) := by
  refine ⟨?_, ?_, ?_⟩
  · intro he
    simp [export_collections, he]
  · intro henv he
    simp [export_environments, henv, he]
  · intro hid he
    simp [get_workspace, hid, he]

/-- Witness for the amended C2: a concrete failed collections listing is
absorbed into a zero count. -/
theorem listing_error_handling_spec_witness :
    export_collections "w1" "out" net_listing_down emptyFS =
      (Except.ok 0, emptyFS, [collections_list_url "w1"]) :=
  (listing_error_handling_spec "w1" "out" cfg_w1 net_listing_down emptyFS
    "Connection error: Connection refused").1 rfl

/-- Counterexample to C9 as stated: with the timestamp option off, a run
into a directory left by an earlier run completes successfully and writes
its summary into that same directory, while the earlier run's stale
collection file is still present inside it afterwards — the directory is
reused and merged, not created fresh. -/
theorem stale_file_remains_counterexample :
    (export_postman_collections cfg_w1 "ts" "iso" net_empty_listing fs_stale).1 =
      Except.ok
        { export_directory := "out"
          collections_count := 0
          environments_count := 0
          workspace_info := none
          summary := JValue.obj
            [("export_date", JValue.str "iso"),
             ("workspace_type", JValue.str "personal"),
             ("workspace_name", JValue.str "Not specified"),
             ("collections_exported", JValue.num 0),
             ("environments_exported", JValue.num 0),
             ("export_directory", JValue.str "out")] } ∧
    (export_postman_collections cfg_w1 "ts" "iso" net_empty_listing fs_stale).2.1.events =
      ["out/export_summary.json"] ∧
    (export_postman_collections cfg_w1 "ts" "iso" net_empty_listing fs_stale).2.1.files.lookup
      "out/collections/stale.json" = some (JValue.str "from an earlier run") :=
  ⟨rfl, rfl, rfl⟩

/-- C9 amended: the output directory name is derived from the
configuration (timestamp-suffixed when the option is on) and the directory
tree is created with exist-ok semantics: an already-existing directory is
reused, and directory creation never removes or modifies any existing file
— so a run whose directory name already exists merges with the prior
content instead of starting fresh. -/
theorem export_directory_exist_ok (config : Config) (now_ts : String) (fs : FS) :
    (create_export_directory config now_ts fs).2.files = fs.files ∧
    (create_export_directory config now_ts fs).2.events = fs.events ∧
    (∀ d, d ∈ fs.dirs → d ∈ (create_export_directory config now_ts fs).2.dirs) ∧
    (create_export_directory config now_ts fs).1 =
      (if config.include_timestamp then config.export_directory ++ "_" ++ now_ts
       else config.export_directory) := by
  obtain ⟨h1, h2, h3, h4, _⟩ := create_dir_spec config now_ts fs
  exact ⟨h1, h2, h3, h4⟩

/-- C10: when validation passes but workspace resolution fails, the run
has already created the export directory with its `collections/` child
(and `environments/` child when environment export is enabled); the run
returns the resolution error, yet this directory tree is left on the
filesystem while no file was written — the export is not atomic on
error. -/
theorem failed_resolution_leaves_tree (config : Config) (net : Net)
    (now_ts now_iso : String) (fs : FS) (e : String) (calls : List String)
    (hv : validate_config config = Except.ok ())
    (hw : get_workspace config net = (Except.error e, calls)) :
    (export_postman_collections config now_ts now_iso net fs).1 = Except.error e ∧
    (export_postman_collections config now_ts now_iso net fs).2.1.files = fs.files ∧
    (export_postman_collections config now_ts now_iso net fs).2.1.events = fs.events ∧
    (if config.include_timestamp then config.export_directory ++ "_" ++ now_ts
     else config.export_directory)
      ∈ (export_postman_collections config now_ts now_iso net fs).2.1.dirs ∧
    ((if config.include_timestamp then config.export_directory ++ "_" ++ now_ts
      else config.export_directory) ++ "/collections")
      ∈ (export_postman_collections config now_ts now_iso net fs).2.1.dirs ∧
    (config.export_environments = true →
      ((if config.include_timestamp then config.export_directory ++ "_" ++ now_ts
        else config.export_directory) ++ "/environments")
        ∈ (export_postman_collections config now_ts now_iso net fs).2.1.dirs) := by
  have hrun : export_postman_collections config now_ts now_iso net fs =
      (Except.error e, (create_export_directory config now_ts fs).2, calls) := by
    simp [export_postman_collections, hv, hw]
  obtain ⟨h1, h2, h3, h4, h5, h6, h7⟩ := create_dir_spec config now_ts fs
  rw [hrun]
  exact ⟨rfl, h1, h2,
    by rw [← h4]; exact h5,
    by rw [← h4]; exact h6,
    fun henv => by rw [← h4]; exact h7 henv⟩

/-- Witness for C10: failed workspace resolution over a dead network still
leaves `out` and `out/collections` behind, with no file written. -/
theorem failed_resolution_leaves_tree_witness :
    (export_postman_collections cfg_team "ts" "iso" net_down emptyFS).1 =
      Except.error "Failed to fetch workspaces: Connection error: Connection refused" ∧
    (export_postman_collections cfg_team "ts" "iso" net_down emptyFS).2.1.files =
      emptyFS.files ∧
    (export_postman_collections cfg_team "ts" "iso" net_down emptyFS).2.1.events =
      emptyFS.events ∧
    "out" ∈ (export_postman_collections cfg_team "ts" "iso" net_down emptyFS).2.1.dirs ∧
    "out/collections"
      ∈ (export_postman_collections cfg_team "ts" "iso" net_down emptyFS).2.1.dirs ∧
    (cfg_team.export_environments = true →
      "out/environments"
        ∈ (export_postman_collections cfg_team "ts" "iso" net_down emptyFS).2.1.dirs) :=
  failed_resolution_leaves_tree cfg_team net_down "ts" "iso" emptyFS
    "Failed to fetch workspaces: Connection error: Connection refused"
    [workspaces_url] rfl rfl

/-- Witness for the amended C9 at a concrete configuration and a
filesystem holding prior-run content: files survive directory creation and
the pre-existing directory is reused. -/
theorem export_directory_exist_ok_witness :
    (create_export_directory cfg_w1 "ts" fs_stale).2.files = fs_stale.files ∧
    "out" ∈ (create_export_directory cfg_w1 "ts" fs_stale).2.dirs :=
  ⟨(export_directory_exist_ok cfg_w1 "ts" fs_stale).1,
   (export_directory_exist_ok cfg_w1 "ts" fs_stale).2.2.1 "out" (by decide)⟩
